import Mathlib

/-!
# Verification of the photo_detection hybrid OCR pipeline and offline cache

Shallow embedding of the client-side OCR dispatch pipeline (`OCR` module,
`src/sw.js` lines 131–350), the service-worker cache controller
(`src/sw.js` lines 1–126), and the batch-processing loop
(`App.handleBatchFiles`, `src/js/app.js`).

External effects (network responses, image decoding, the Tesseract engine)
are supplied as explicit environment values; the Lean functions reproduce
the control flow of the JavaScript source over those environments.
-/

set_option autoImplicit false

namespace PhotoDetection

/-! ## OCR dispatch model (`OCR.process` / `processOnline` / `processOffline`)

`OCR.processOnline` enhances the image, POSTs it with a 30 s abort timer,
throws `HTTP <status>` on a non-ok response, throws the service error when
`IsErroredOnProcessing` is set, and otherwise returns
`ParsedResults?.[0]?.ParsedText || ''`.

`OCR.processOffline` loads Tesseract.js when `typeof Tesseract ===
'undefined'` (outside its try block, so a load failure propagates
unwrapped), then enhances and recognizes inside a try block whose catch
rethrows `'Offline OCR failed: ' + err.message`.

`OCR.process` samples `navigator.onLine` once: when online it tries
`processOnline` and on *any* thrown error falls back to `processOffline`;
when offline it goes straight to `processOffline`.
-/

/-- Failures of `OCR.enhanceImage`: `img.onerror` rejects with
`'Failed to load image'` (decode failure); a null blob from
`canvas.toBlob` rejects with `'Processing failed'` (encode failure). -/
inductive EnhanceError where
  | decodeFailed
  | encodeFailed
  deriving DecidableEq, Repr

/-- The `Error.message` string the source attaches to each enhancement
failure. -/
def EnhanceError.message : EnhanceError → String
  | .decodeFailed => "Failed to load image"
  | .encodeFailed => "Processing failed"

/-- Outcome of the remote `fetch(this.API_URL, ...)` call, as seen by
`processOnline`: the 30 s abort timer fired, the fetch rejected with a
network error, or a response arrived carrying an HTTP status and the
JSON fields the code inspects. -/
inductive RemoteOutcome where
  | timeout
  | netFail (msg : String)
  | resp (status : Nat) (isErroredOnProcessing : Bool)
      (errorMessage : Option String) (parsedText : Option String)
  deriving DecidableEq, Repr

/-- `Response.ok` in the fetch API: status in the range 200–299. -/
def respOk (status : Nat) : Bool := 200 ≤ status && status ≤ 299

/-- The errors a dispatch can raise, one constructor per distinct `throw`
site in the source. -/
inductive OcrError where
  /-- enhancement failure propagating out of `processOnline` -/
  | enhance (e : EnhanceError)
  /-- `'Request timed out'` after the abort timer fires -/
  | timedOut
  /-- `` `HTTP ${response.status}` `` on a non-ok response -/
  | httpStatus (status : Nat)
  /-- `data.ErrorMessage || 'OCR failed'` when `IsErroredOnProcessing` -/
  | apiProcessing (msg : String)
  /-- a fetch rejection other than the abort, rethrown as-is -/
  | netFail (msg : String)
  /-- `'Failed to load Tesseract.js'` from `loadTesseract` -/
  | engineLoad
  /-- `'Offline OCR failed: ' + err.message` from `processOffline` -/
  | offlineFailed (innerMsg : String)
  deriving DecidableEq, Repr

/-- The three remote-attempt error kinds the spec's fallback rule is
about: timeout, non-2xx HTTP status, service-reported processing error. -/
def OcrError.isRemote : OcrError → Bool
  | .timedOut => true
  | .httpStatus _ => true
  | .apiProcessing _ => true
  | _ => false

/-- Environment of one dispatch: `navigator.onLine` at entry, the
(deterministic, per spec §4.1) enhancement outcome for this file, the
remote call's outcome, whether `Tesseract` is already defined, whether a
dynamic script load would succeed, and the recognition outcome. -/
structure DispatchEnv where
  online : Bool
  enhance : Except EnhanceError Unit
  remote : RemoteOutcome
  tesseractLoaded : Bool
  loadOk : Bool
  recognize : Except String String
  deriving Repr

/-- Result of `processOnline`: the returned text or thrown error, the
number of fetches actually issued to the OCR endpoint, and the progress
strings reported so far. -/
def processOnline (env : DispatchEnv) :
    Except OcrError String × Nat × List String :=
  match env.enhance with
  | .error e => (.error (.enhance e), 0, ["Enhancing image..."])
  | .ok _ =>
    let pre := ["Enhancing image...", "Sending to OCR..."]
    match env.remote with
    | .timeout => (.error .timedOut, 1, pre)
    | .netFail m => (.error (.netFail m), 1, pre)
    | .resp status errored errMsg parsed =>
      if respOk status then
        if errored then
          (.error (.apiProcessing (errMsg.getD "OCR failed")), 1, pre)
        else
          (.ok (parsed.getD ""), 1, pre ++ ["Done!"])
      else
        (.error (.httpStatus status), 1, pre)

/-- Result of `processOffline`: the returned text or thrown error and the
progress strings reported (per-percent recognition progress lines from
the Tesseract logger are elided). -/
def processOffline (env : DispatchEnv) :
    Except OcrError String × List String :=
  let p0 := ["Loading offline OCR engine..."]
  if !env.tesseractLoaded && !env.loadOk then
    (.error .engineLoad, p0)
  else
    let p1 := p0 ++ ["Processing image offline..."]
    match env.enhance with
    | .error e => (.error (.offlineFailed e.message), p1)
    | .ok _ =>
      match env.recognize with
      | .error m => (.error (.offlineFailed m), p1)
      | .ok t => (.ok t, p1 ++ ["Done! (Offline)"])

/-- Caller-visible trace of one dispatch: the value returned or error
thrown by `OCR.process`, how many fetches reached the remote OCR
endpoint, how many times the local path (`processOffline`) ran, and the
concatenated progress-callback strings. -/
structure DispatchTrace where
  result : Except OcrError String
  remoteFetches : Nat
  localAttempts : Nat
  progress : List String
  deriving Repr

/-- `OCR.process`: sample the online flag once; online → try the remote
path and fall back to the local path on any error (announcing the
fallback via the progress callback); offline → local path directly. -/
def process (env : DispatchEnv) : DispatchTrace :=
  if env.online then
    match processOnline env with
    | (.ok t, n, prog) =>
      { result := .ok t, remoteFetches := n, localAttempts := 0,
        progress := prog }
    | (.error _, n, prog) =>
      let (r, prog2) := processOffline env
      { result := r, remoteFetches := n, localAttempts := 1,
        progress := prog ++ ["Online failed, using offline OCR..."] ++ prog2 }
  else
    let (r, prog2) := processOffline env
    { result := r, remoteFetches := 0, localAttempts := 1,
      progress := ["📴 Offline mode - using local OCR..."] ++ prog2 }

/-- A remote attempt that fails for one of the three reasons in the
spec's fallback rule: the abort timer fired, the status is non-2xx, or
the service flagged `IsErroredOnProcessing`. -/
def remoteAttemptFails : RemoteOutcome → Prop
  | .timeout => True
  | .netFail _ => False
  | .resp status errored _ _ => respOk status = false ∨ errored = true

instance (r : RemoteOutcome) : Decidable (remoteAttemptFails r) := by
  cases r with
  | timeout => exact .isTrue trivial
  | netFail m => exact .isFalse id
  | resp s e em pt => exact inferInstanceAs (Decidable (_ ∨ _))

/-! ## Service-worker cache model (`src/sw.js` lines 1–126)

The install handler runs `cache.addAll(CACHE_URLS)` (a batch operation:
it rejects, storing nothing, if any fetch fails) and then
`Promise.allSettled(TESSERACT_URLS.map(url => cache.add(url)))`, which
never rejects and whose element fetches are independent. A rejection of
the `waitUntil` promise fails the install, so the new worker — and with
it the new cache generation — is discarded and the previously active
worker with its generation stays in force (ServiceWorker platform
semantics). The activate handler deletes every cache key different from
`CACHE_NAME`; the fetch handler serves GET requests cache-first, stores
ok network responses, and answers network failure with a synthetic 503.
-/

def CACHE_NAME : String := "label-scanner-v6"

def CACHE_URLS : List String :=
  ["./", "./index.html", "./css/styles.css", "./js/app.js",
   "./js/storage.js", "./js/parser.js", "./js/ocr.js", "./manifest.json"]

def TESSERACT_URLS : List String :=
  ["https://cdn.jsdelivr.net/npm/tesseract.js@5/dist/tesseract.min.js",
   "https://cdn.jsdelivr.net/npm/tesseract.js@5/dist/worker.min.js"]

/-- Cache storage plus which generation the in-force worker serves from:
each generation is a name paired with the list of URLs it stores. -/
structure SWState where
  store : List (String × List String)
  active : Option String
  deriving Repr

/-- The install event over an environment telling which URL fetches
succeed. `addAll` over the required set is atomic; the optional
Tesseract fetches are `allSettled`, so each is kept or dropped
independently; success ends with `skipWaiting`, making the new
generation the one in force. Failure discards the new worker and leaves
the previous state untouched. -/
def installEvent (fetchOk : String → Bool) (st : SWState) : SWState :=
  if CACHE_URLS.all fetchOk then
    { store := (CACHE_NAME, CACHE_URLS ++ TESSERACT_URLS.filter fetchOk)
        :: st.store.filter (fun g => g.1 ≠ CACHE_NAME),
      active := some CACHE_NAME }
  else
    st

/-- The activate event: `keys.filter(key => key !== CACHE_NAME)` are
deleted, so these cache names survive. `current` stands for the
`CACHE_NAME` constant of the installed worker version. -/
def activateSurvivors (current : String) (keys : List String) : List String :=
  keys.filter (fun key => key = current)

/-- The cache names the activate event deletes. -/
def activateDeleted (current : String) (keys : List String) : List String :=
  keys.filter (fun key => key ≠ current)

/-- A captured HTTP response: status plus body text. -/
structure Resp where
  status : Nat
  body : String
  deriving DecidableEq, Repr

/-- `Response.ok` for a captured response. -/
def Resp.ok (r : Resp) : Bool := 200 ≤ r.status && r.status ≤ 299

/-- What the fetch handler does with one request. -/
inductive FetchResult where
  /-- non-GET: the handler returns without `respondWith` -/
  | bypass
  /-- the response handed to the caller, and the entry (if any) put into
  the current generation -/
  | served (response : Resp) (put : Option Resp)
  deriving DecidableEq, Repr

/-- The cache-first body shared verbatim by the same-origin and
cross-origin branches of the fetch handler: cache hit → stored response;
miss → network, storing the response when `ok`; rejection → synthetic
`Response('Offline', { status: 503 })`. `net = none` models a fetch
rejection (network failure). -/
def cacheFirst (cached : Option Resp) (net : Option Resp) : FetchResult :=
  match cached with
  | some r => .served r none
  | none =>
    match net with
    | some r => .served r (if r.ok then some r else none)
    | none => .served ⟨503, "Offline"⟩ none

/-- The fetch event handler: skip non-GET requests; otherwise both the
same-origin and the cross-origin branch apply the identical cache-first
policy. -/
def fetchHandler (method : String) (sameOrigin : Bool)
    (cached : Option Resp) (net : Option Resp) : FetchResult :=
  if method ≠ "GET" then
    .bypass
  else
    if sameOrigin then cacheFirst cached net else cacheFirst cached net

/-! ## Local-engine loader model (`OCR.loadTesseract`)

`processOffline` checks `typeof Tesseract === 'undefined'` and then
`loadTesseract` re-checks it and appends a `<script>` element — all
synchronously before any await, so each call that starts while the
engine is not yet defined performs its own script fetch. `Tesseract`
becomes defined only when a previously appended script finishes loading.
The loader keeps no pending-initialization handle (`tesseractWorker` is
never written), so there is nothing for a concurrent caller to await.
-/

/-- Loader state: whether `Tesseract` is defined, and how many script
fetches have been issued. -/
structure LoaderState where
  loaded : Bool
  fetches : Nat
  deriving DecidableEq, Repr

/-- Events of the loader: a caller enters `loadTesseract` (its
synchronous prefix runs atomically), or an appended script finishes
loading and defines `Tesseract`. -/
inductive LoaderEvent where
  | call
  | scriptLoaded
  deriving DecidableEq, Repr

/-- One loader event: a call fetches the script unless `Tesseract` is
already defined; a script-load completion defines it. -/
def loaderStep (s : LoaderState) : LoaderEvent → LoaderState
  | .call => if s.loaded then s else { s with fetches := s.fetches + 1 }
  | .scriptLoaded => { s with loaded := true }

/-- Run a schedule of loader events from the initial state
(`Tesseract` undefined, no fetches yet). -/
def runLoader (evs : List LoaderEvent) : LoaderState :=
  evs.foldl loaderStep { loaded := false, fetches := 0 }

/-! ## Pixel enhancement model (`OCR.applyEnhancements`)

The source walks the RGBA byte array in strides of 4: it accumulates
`(data[i] + data[i+1] + data[i+2]) / 3` per pixel, divides by the pixel
count to get the average brightness, picks a brightness offset of 20
when that average is below 128 (0 otherwise), and rewrites each color
channel as `min(255, max(0, (v - 128) * 1.3 + 128 + offset))`, leaving
alpha untouched. Channel values are modelled as exact rationals
(`1.3 = 13/10`); for an empty raster JavaScript compares `NaN < 128`,
which is false, so the offset is 0 — hence the explicit emptiness guard.
-/

/-- One RGBA pixel; channels carried as rationals. -/
structure Pixel where
  r : ℚ
  g : ℚ
  b : ℚ
  a : ℚ
  deriving DecidableEq, Repr, Inhabited

/-- `Math.min(255, Math.max(0, x))`. -/
def clamp255 (x : ℚ) : ℚ := min 255 (max 0 x)

/-- `totalBrightness`: sum over pixels of the mean of the three color
channels. -/
def totalBrightness (ps : List Pixel) : ℚ :=
  (ps.map (fun p => (p.r + p.g + p.b) / 3)).sum

/-- `avgBrightness = totalBrightness / (data.length / 4)`. -/
def avgBrightness (ps : List Pixel) : ℚ :=
  totalBrightness ps / (ps.length : ℚ)

/-- `brightnessFactor = avgBrightness < 128 ? 20 : 0`; on an empty
raster the average is `0/0 = NaN` and `NaN < 128` is false. -/
def brightnessFactor (ps : List Pixel) : ℚ :=
  if ps.length ≠ 0 ∧ avgBrightness ps < 128 then 20 else 0

/-- The per-channel rewrite `min(255, max(0, (v - 128) * 1.3 + 128 + bf))`. -/
def enhanceChannel (bf : ℚ) (v : ℚ) : ℚ :=
  clamp255 ((v - 128) * (13 / 10) + 128 + bf)

/-- The enhancement loop: every color channel of every pixel is
rewritten; alpha (`data[i+3]`) is not touched. -/
def applyEnhancements (ps : List Pixel) : List Pixel :=
  let bf := brightnessFactor ps
  ps.map (fun p =>
    { r := enhanceChannel bf p.r, g := enhanceChannel bf p.g,
      b := enhanceChannel bf p.b, a := p.a })

/-! ## Batch-processing model (`App.handleBatchFiles`, `src/js/app.js`)

The loop walks the selected files in order. At the top of each iteration
it checks `this.batchCancelled` and breaks if set. The body — data-URL
conversion, `OCR.process`, `Parser.parse`, `Storage.save` — sits in a
`try` whose `catch` only logs, so a failing item is skipped and the loop
continues. `processed` is incremented at the start of each body,
`saved` after a successful `Storage.save`.
-/

/-- Environment of one batch item: whether each step of the loop body
completes without throwing. A step after a failed one never runs. -/
structure BatchItem where
  toDataUrlOk : Bool
  ocrOk : Bool
  parseOk : Bool
  saveOk : Bool
  deriving DecidableEq, Repr

/-- An item is saved exactly when every step of its body succeeded. -/
def BatchItem.succeeds (it : BatchItem) : Bool :=
  it.toDataUrlOk && it.ocrOk && it.parseOk && it.saveOk

/-- Observable counters of a batch run. -/
structure BatchCounters where
  processed : Nat
  saved : Nat
  deriving DecidableEq, Repr

/-- The `batchCancelled` flag as observed at the head of iteration
`idx`: once set (at index `k`) it stays set. -/
def cancelledAt (cancelFrom : Option Nat) (idx : Nat) : Bool :=
  match cancelFrom with
  | some k => decide (k ≤ idx)
  | none => false

/-- The batch loop. `cancelFrom` is the iteration index from which the
asynchronously set `batchCancelled` flag is observed as true (`none` if
it never is); the check happens at the head of each iteration, before
`processed` is incremented. -/
def runBatchFrom (cancelFrom : Option Nat) (idx : Nat) :
    List BatchItem → BatchCounters → BatchCounters
  | [], acc => acc
  | it :: rest, acc =>
    if cancelledAt cancelFrom idx then
      acc
    else
      let acc' : BatchCounters :=
        { processed := acc.processed + 1,
          saved := acc.saved + (if it.succeeds then 1 else 0) }
      runBatchFrom cancelFrom (idx + 1) rest acc'

/-- Run `handleBatchFiles` on a file list. -/
def runBatch (cancelFrom : Option Nat) (items : List BatchItem) :
    BatchCounters :=
  runBatchFrom cancelFrom 0 items { processed := 0, saved := 0 }

/-! ## Theorems -/

/-- Helper: every error `processOffline` can raise is `engineLoad` or
`offlineFailed`, never one of the three remote kinds. -/
theorem processOffline_error_not_remote (env : DispatchEnv) (e : OcrError)
    (h : (processOffline env).1 = .error e) : e.isRemote = false := by
  unfold processOffline at h
  by_cases hl : (!env.tesseractLoaded && !env.loadOk) = true
  · simp only [hl, if_pos] at h
    cases h
    rfl
  · simp only [hl, if_neg, Bool.not_eq_true] at h
    revert h
    cases env.enhance with
    | error e' =>
      intro h
      cases h
      rfl
    | ok _ =>
      cases env.recognize with
      | error m =>
        intro h
        cases h
        rfl
      | ok t =>
        intro h
        cases h

/-- C1: a dispatch that starts online and whose remote attempt fails
(timeout, non-2xx status, or `IsErroredOnProcessing`) runs the local
path exactly once afterward, never raises a remote-kind error to the
caller, and surfaces the fallback through the progress-callback string. -/
theorem remote_failure_falls_back_once (env : DispatchEnv)
    (honline : env.online = true)
    (henh : env.enhance = .ok ())
    (hfail : remoteAttemptFails env.remote) :
    (process env).localAttempts = 1 ∧
    (∀ e, (process env).result = .error e → e.isRemote = false) ∧
    "Online failed, using offline OCR..." ∈ (process env).progress := by
  have hfall : ∃ e₀ n prog, processOnline env = (.error e₀, n, prog) := by
    obtain ⟨online, enh, remote, tl, lok, rec⟩ := env
    dsimp only at henh hfail
    subst henh
    cases remote with
    | timeout => exact ⟨_, _, _, rfl⟩
    | netFail m => simp [remoteAttemptFails] at hfail
    | resp status errored errMsg parsed =>
      by_cases hok : respOk status = true
      · have herr : errored = true := by
          rcases hfail with h | h
          · rw [hok] at h; cases h
          · exact h
        subst herr
        exact ⟨.apiProcessing (errMsg.getD "OCR failed"), 1,
          ["Enhancing image...", "Sending to OCR..."],
          by simp [processOnline, hok]⟩
      · simp only [Bool.not_eq_true] at hok
        exact ⟨.httpStatus status, 1,
          ["Enhancing image...", "Sending to OCR..."],
          by simp [processOnline, hok]⟩
  obtain ⟨e₀, n, prog, hpo⟩ := hfall
  have hproc : process env =
      { result := (processOffline env).1, remoteFetches := n,
        localAttempts := 1,
        progress := prog ++ ["Online failed, using offline OCR..."]
          ++ (processOffline env).2 } := by
    unfold process
    rw [honline, if_pos rfl, hpo]
  refine ⟨by rw [hproc], ?_, ?_⟩
  · intro e he
    rw [hproc] at he
    exact processOffline_error_not_remote env e he
  · rw [hproc]
    simp

/-- Witness for C1 at a concrete environment: online, enhancement ok,
remote timeout, engine loaded, recognition succeeding. -/
theorem remote_failure_falls_back_once_witness :
    (process ⟨true, .ok (), .timeout, true, true, .ok "text"⟩).localAttempts
        = 1 ∧
    (∀ e, (process ⟨true, .ok (), .timeout, true, true,
        .ok "text"⟩).result = .error e → e.isRemote = false) ∧
    "Online failed, using offline OCR..."
      ∈ (process ⟨true, .ok (), .timeout, true, true, .ok "text"⟩).progress :=
  remote_failure_falls_back_once _ rfl rfl trivial

/-- C5: a dispatch that starts with the network signal offline issues
zero fetches to the remote OCR endpoint and goes directly to the local
path. -/
theorem offline_dispatch_never_calls_remote (env : DispatchEnv)
    (h : env.online = false) :
    (process env).remoteFetches = 0 ∧ (process env).localAttempts = 1 := by
  unfold process
  rw [h]
  exact ⟨rfl, rfl⟩

/-- Witness for C5 at a concrete offline environment. -/
theorem offline_dispatch_never_calls_remote_witness :
    (process ⟨false, .ok (), .timeout, true, true,
        .ok "text"⟩).remoteFetches = 0 ∧
    (process ⟨false, .ok (), .timeout, true, true,
        .ok "text"⟩).localAttempts = 1 :=
  offline_dispatch_never_calls_remote _ rfl

/-- C7 counterexample: an online dispatch whose enhancement fails with a
decode error does *not* abort with that error and *does* fall back — the
local path runs once (`processOnline`'s throw is caught by the blanket
`catch` in `OCR.process`), and the terminal error is the wrapped
`'Offline OCR failed: Failed to load image'`, not the decode error. -/
theorem enhance_failure_aborts_immediately_cex :
    (process ⟨true, .error .decodeFailed, .timeout, true, true,
        .ok "x"⟩).localAttempts = 1 ∧
    (process ⟨true, .error .decodeFailed, .timeout, true, true,
        .ok "x"⟩).result = .error (.offlineFailed "Failed to load image") ∧
    (process ⟨true, .error .decodeFailed, .timeout, true, true,
        .ok "x"⟩).result ≠ .error (.enhance .decodeFailed) :=
  ⟨rfl, rfl, fun h => OcrError.noConfusion (Except.error.inj h)⟩

/-- C7 amended: a dispatch whose image enhancement fails never reaches
either recognition engine's actual work, but it does not abort with the
enhancement error: zero remote fetches are issued (enhancement precedes
the POST), the local path still runs exactly once (directly when
offline, via the silent fallback when online), and the dispatch
terminates with the wrapped local error carrying the enhancement
message. -/
theorem enhance_failure_wrapped_local_error (env : DispatchEnv)
    (e : EnhanceError) (henh : env.enhance = .error e)
    (hl : env.tesseractLoaded = true) :
    (process env).remoteFetches = 0 ∧
    (process env).localAttempts = 1 ∧
    (process env).result = .error (.offlineFailed e.message) := by
  obtain ⟨online, enh, remote, tl, lok, rec⟩ := env
  dsimp only at henh hl
  subst henh
  subst hl
  cases online with
  | true => exact ⟨rfl, rfl, rfl⟩
  | false => exact ⟨rfl, rfl, rfl⟩

/-- Witness for the amended C7 at a concrete offline environment with an
encode failure. -/
theorem enhance_failure_wrapped_local_error_witness :
    (process ⟨false, .error .encodeFailed, .timeout, true, true,
        .ok "x"⟩).remoteFetches = 0 ∧
    (process ⟨false, .error .encodeFailed, .timeout, true, true,
        .ok "x"⟩).localAttempts = 1 ∧
    (process ⟨false, .error .encodeFailed, .timeout, true, true,
        .ok "x"⟩).result = .error (.offlineFailed "Processing failed") :=
  enhance_failure_wrapped_local_error _ .encodeFailed rfl rfl

/-- C9 counterexample: the dispatcher returns a bare text string with no
source tag. A dispatch whose text came from the remote service and a
dispatch whose text came from the local engine produce *identical*
caller-visible results, although their sources differ (0 vs 1 local
attempts) — so the result cannot be "tagged with its source". -/
theorem dispatch_result_untagged_cex :
    (process ⟨true, .ok (), .resp 200 false none (some "hello"), true,
        true, .ok "hello"⟩).result
      = (process ⟨false, .ok (), .timeout, true, true,
        .ok "hello"⟩).result ∧
    (process ⟨true, .ok (), .resp 200 false none (some "hello"), true,
        true, .ok "hello"⟩).localAttempts = 0 ∧
    (process ⟨false, .ok (), .timeout, true, true,
        .ok "hello"⟩).localAttempts = 1 :=
  ⟨rfl, rfl, rfl⟩

/-- C9 amended: the caller receives either a plain text result (with no
source tag — the source is observable only through progress-callback
strings such as `'Done! (Offline)'`) or exactly one terminal error; in
particular a remote timeout followed by successful local recognition
returns the local text, with the fallback announced only via the
progress callback. -/
theorem timeout_then_local_success_returns_text (env : DispatchEnv)
    (t : String) (honline : env.online = true)
    (henh : env.enhance = .ok ()) (hrem : env.remote = .timeout)
    (hl : env.tesseractLoaded = true) (hrec : env.recognize = .ok t) :
    (process env).result = .ok t ∧
    "Done! (Offline)" ∈ (process env).progress ∧
    "Online failed, using offline OCR..." ∈ (process env).progress := by
  obtain ⟨online, enh, remote, tl, lok, rec⟩ := env
  dsimp only at honline henh hrem hl hrec
  subst honline
  subst henh
  subst hrem
  subst hl
  subst hrec
  exact ⟨rfl, by simp [process, processOnline, processOffline],
    by simp [process, processOnline, processOffline]⟩

/-- Witness for the amended C9 at a concrete environment: remote
timeout, engine loaded, local recognition yielding `"scan"`. -/
theorem timeout_then_local_success_returns_text_witness :
    (process ⟨true, .ok (), .timeout, true, false,
        .ok "scan"⟩).result = .ok "scan" ∧
    "Done! (Offline)"
      ∈ (process ⟨true, .ok (), .timeout, true, false,
        .ok "scan"⟩).progress ∧
    "Online failed, using offline OCR..."
      ∈ (process ⟨true, .ok (), .timeout, true, false,
        .ok "scan"⟩).progress :=
  timeout_then_local_success_returns_text _ "scan" rfl rfl rfl rfl rfl

/-- Helper: once `Tesseract` is defined, further loader events change
nothing: calls return immediately and no more fetches happen. -/
theorem foldl_loaderStep_loaded (evs : List LoaderEvent) (s : LoaderState)
    (h : s.loaded = true) :
    (evs.foldl loaderStep s).fetches = s.fetches := by
  induction evs generalizing s with
  | nil => rfl
  | cons e rest ih =>
    cases e with
    | call =>
      simp only [List.foldl_cons, loaderStep, h, if_pos]
      exact ih s h
    | scriptLoaded =>
      simp only [List.foldl_cons, loaderStep]
      have : ({ s with loaded := true } : LoaderState).fetches = s.fetches :=
        rfl
      rw [ih { s with loaded := true } rfl, this]

/-- Helper: starting with `Tesseract` undefined, the fetch counter grows
by the number of leading call events up to the first script-load
completion. -/
theorem foldl_loaderStep_unloaded (evs : List LoaderEvent) (s : LoaderState)
    (h : s.loaded = false) :
    (evs.foldl loaderStep s).fetches
      = s.fetches
        + (evs.takeWhile (fun e => e = LoaderEvent.call)).length := by
  induction evs generalizing s with
  | nil => rfl
  | cons e rest ih =>
    cases e with
    | call =>
      simp only [List.foldl_cons, loaderStep, h, Bool.false_eq_true,
        if_false, List.takeWhile_cons, decide_True, if_true,
        List.length_cons]
      rw [ih ⟨false, s.fetches + 1⟩ rfl]
      dsimp only
      omega
    | scriptLoaded =>
      simp only [List.foldl_cons, loaderStep, List.takeWhile_cons]
      rw [foldl_loaderStep_loaded rest { s with loaded := true } rfl]
      simp

/-- C4 counterexample: two callers entering the loader while the engine
is still undefined each append their own script element — two
initialization fetches, contradicting "at most one initialization fetch
process-wide". -/
theorem loader_duplicate_fetch_cex :
    (runLoader [.call, .call]).fetches = 2 ∧
    ¬ (runLoader [.call, .call]).fetches ≤ 1 :=
  ⟨rfl, by decide⟩

/-- C4 amended: the loader has no single-flight guard — every call that
starts before the first script-load completion performs its own
initialization fetch, and calls after completion perform none: the
total fetch count equals the number of leading call events before the
first completion. -/
theorem loader_fetches_eq_calls_before_completion (evs : List LoaderEvent) :
    (runLoader evs).fetches
      = (evs.takeWhile (fun e => e = LoaderEvent.call)).length := by
  unfold runLoader
  rw [foldl_loaderStep_unloaded evs { loaded := false, fetches := 0 } rfl]
  dsimp only
  omega

/-- Helper: filtering a duplicate-free list for one of its members
leaves exactly that member. -/
theorem filter_eq_singleton_of_nodup (current : String) (keys : List String)
    (hnd : keys.Nodup) (hmem : current ∈ keys) :
    keys.filter (fun key => key = current) = [current] := by
  induction keys with
  | nil => cases hmem
  | cons a l ih =>
    rw [List.nodup_cons] at hnd
    simp only [List.filter_cons]
    rcases List.mem_cons.mp hmem with h | h
    · subst h
      simp only [decide_True, if_true]
      have hnil : l.filter (fun key => key = current) = [] := by
        rw [List.filter_eq_nil_iff]
        intro x hx
        simp only [decide_eq_true_eq]
        intro he
        exact hnd.1 (he ▸ hx)
      rw [hnil]
    · have hne : ¬ (a = current) := fun he => hnd.1 (he ▸ h)
      simp only [hne, decide_eq_true_eq, if_neg]
      exact ih hnd.2 h

/-- C3: after activation, the only surviving cache generation is the
current one — every other existing generation is deleted. -/
theorem activate_deletes_all_other_generations (current : String)
    (keys : List String) (hnd : keys.Nodup) (hmem : current ∈ keys) :
    activateSurvivors current keys = [current] ∧
    ∀ k ∈ keys, k ≠ current → k ∈ activateDeleted current keys := by
  refine ⟨filter_eq_singleton_of_nodup current keys hnd hmem, ?_⟩
  intro k hk hne
  unfold activateDeleted
  rw [List.mem_filter]
  exact ⟨hk, by simp [hne]⟩

/-- Witness for C3, instantiating the spec scenario: activating
generation `v7` while `v6` and `v5` exist keeps only `v7` and deletes
`v6` and `v5`. -/
theorem activate_deletes_all_other_generations_witness :
    activateSurvivors "label-scanner-v7"
        ["label-scanner-v7", "label-scanner-v6", "label-scanner-v5"]
      = ["label-scanner-v7"] ∧
    ∀ k ∈ ["label-scanner-v7", "label-scanner-v6", "label-scanner-v5"],
      k ≠ "label-scanner-v7" →
        k ∈ activateDeleted "label-scanner-v7"
          ["label-scanner-v7", "label-scanner-v6", "label-scanner-v5"] :=
  activate_deletes_all_other_generations "label-scanner-v7"
    ["label-scanner-v7", "label-scanner-v6", "label-scanner-v5"]
    (by decide) (by decide)

/-- C6: the fetch interceptor on a GET request serves a cache hit
immediately without writing; on a miss it goes to the network, and an
ok (2xx) response is returned to the caller and also put into the
current generation; a network failure with no cache entry yields the
synthetic 503 `'Offline'` response instead of an unhandled rejection. -/
theorem fetch_handler_policy (method : String) (sameOrigin : Bool)
    (cached net : Option Resp) (hm : method = "GET") :
    (∀ r, cached = some r →
      fetchHandler method sameOrigin cached net = .served r none) ∧
    (∀ r, cached = none → net = some r → r.ok = true →
      fetchHandler method sameOrigin cached net = .served r (some r)) ∧
    (cached = none → net = none →
      fetchHandler method sameOrigin cached net
        = .served ⟨503, "Offline"⟩ none) := by
  subst hm
  refine ⟨?_, ?_, ?_⟩ <;> intros <;> subst_vars <;>
    cases sameOrigin <;> simp [fetchHandler, cacheFirst, *]

/-- Witness for C6: the three policy cases at concrete requests. -/
theorem fetch_handler_policy_witness :
    fetchHandler "GET" true (some ⟨200, "cached"⟩) none
      = .served ⟨200, "cached"⟩ none ∧
    fetchHandler "GET" false none (some ⟨200, "fresh"⟩)
      = .served ⟨200, "fresh"⟩ (some ⟨200, "fresh"⟩) ∧
    fetchHandler "GET" true none none = .served ⟨503, "Offline"⟩ none :=
  ⟨(fetch_handler_policy "GET" true (some ⟨200, "cached"⟩) none rfl).1
      ⟨200, "cached"⟩ rfl,
   (fetch_handler_policy "GET" false none (some ⟨200, "fresh"⟩) rfl).2.1
      ⟨200, "fresh"⟩ rfl rfl (by decide),
   (fetch_handler_policy "GET" true none none rfl).2.2 rfl rfl⟩

/-- Helper: the Tesseract CDN URLs are not among the required app-shell
URLs. -/
theorem tesseract_not_required (t : String) (ht : t ∈ TESSERACT_URLS) :
    t ∉ CACHE_URLS := by
  rcases List.mem_cons.mp ht with h | h
  · subst h; decide
  · rcases List.mem_cons.mp h with h' | h'
    · subst h'; decide
    · cases h'

/-- C2: install is atomic in the required resources — any required fetch
failure leaves the state (including the previously active generation)
untouched — while each optional Tesseract fetch succeeds or fails
independently without affecting the install, which still activates a
generation holding every required resource. -/
theorem install_required_atomic_optional_independent
    (fetchOk : String → Bool) (st : SWState) :
    ((∃ u ∈ CACHE_URLS, fetchOk u = false) →
      installEvent fetchOk st = st) ∧
    ((∀ u ∈ CACHE_URLS, fetchOk u = true) →
      ∃ urls,
        installEvent fetchOk st =
          { store := (CACHE_NAME, urls)
              :: st.store.filter (fun g => g.1 ≠ CACHE_NAME),
            active := some CACHE_NAME } ∧
        (∀ u ∈ CACHE_URLS, u ∈ urls) ∧
        (∀ t ∈ TESSERACT_URLS, (t ∈ urls ↔ fetchOk t = true))) := by
  constructor
  · rintro ⟨u, hu, hf⟩
    unfold installEvent
    rw [if_neg]
    intro hall
    rw [List.all_eq_true] at hall
    rw [hall u hu] at hf
    cases hf
  · intro hall
    have hreq : CACHE_URLS.all fetchOk = true :=
      List.all_eq_true.mpr hall
    unfold installEvent
    rw [if_pos hreq]
    refine ⟨CACHE_URLS ++ TESSERACT_URLS.filter fetchOk, rfl,
      fun u hu => List.mem_append_left _ hu, fun t ht => ⟨?_, ?_⟩⟩
    · intro hmem
      rcases List.mem_append.mp hmem with h | h
      · exact absurd h (tesseract_not_required t ht)
      · exact (List.mem_filter.mp h).2
    · intro hok
      exact List.mem_append_right _ (List.mem_filter.mpr ⟨ht, hok⟩)

/-- Witness for C2: a required fetch failing (`./index.html`) leaves a
previously active `v5` state untouched; a purely optional failure (the
Tesseract worker script) still installs a generation with all required
resources, with the surviving optional resource cached and the failed
one absent. -/
theorem install_required_atomic_optional_independent_witness :
    installEvent (fun u => decide (u ≠ "./index.html"))
        ⟨[("label-scanner-v5", ["./"])], some "label-scanner-v5"⟩
      = ⟨[("label-scanner-v5", ["./"])], some "label-scanner-v5"⟩ ∧
    ∃ urls,
      installEvent
          (fun u => decide (u ≠
            "https://cdn.jsdelivr.net/npm/tesseract.js@5/dist/worker.min.js"))
          ⟨[], none⟩
        = { store := [(CACHE_NAME, urls)], active := some CACHE_NAME } ∧
      (∀ u ∈ CACHE_URLS, u ∈ urls) ∧
      (∀ t ∈ TESSERACT_URLS,
        (t ∈ urls ↔
          (fun u => decide (u ≠
            "https://cdn.jsdelivr.net/npm/tesseract.js@5/dist/worker.min.js"))
            t = true)) :=
  ⟨(install_required_atomic_optional_independent
      (fun u => decide (u ≠ "./index.html"))
      ⟨[("label-scanner-v5", ["./"])], some "label-scanner-v5"⟩).1
      ⟨"./index.html", by decide, by decide⟩,
   (install_required_atomic_optional_independent
      (fun u => decide (u ≠
        "https://cdn.jsdelivr.net/npm/tesseract.js@5/dist/worker.min.js"))
      ⟨[], none⟩).2 (by decide)⟩

/-- Helper: `clamp255` always lands in `[0, 255]`. -/
theorem clamp255_bounds (x : ℚ) : 0 ≤ clamp255 x ∧ clamp255 x ≤ 255 :=
  ⟨le_min (by norm_num) (le_max_left 0 x), min_le_left _ _⟩

/-- C8: every output channel of the enhancement loop is the input
channel pushed through the 1.3-contrast transform centered at 128 plus
a +20 brightness offset exactly when the mean luminance over all pixels
is below 128, and — for every input — the clamped result lies in
`[0, 255]`. -/
theorem applyEnhancements_formula_and_clamp (ps : List Pixel) :
    (∀ q ∈ applyEnhancements ps,
      0 ≤ q.r ∧ q.r ≤ 255 ∧ 0 ≤ q.g ∧ q.g ≤ 255 ∧ 0 ≤ q.b ∧ q.b ≤ 255) ∧
    (∀ (i : Nat) (p : Pixel), ps[i]? = some p →
      (applyEnhancements ps)[i]? = some
        { r := min 255 (max 0 ((p.r - 128) * (13 / 10) + 128
            + (if ps.length ≠ 0 ∧ avgBrightness ps < 128 then 20 else 0))),
          g := min 255 (max 0 ((p.g - 128) * (13 / 10) + 128
            + (if ps.length ≠ 0 ∧ avgBrightness ps < 128 then 20 else 0))),
          b := min 255 (max 0 ((p.b - 128) * (13 / 10) + 128
            + (if ps.length ≠ 0 ∧ avgBrightness ps < 128 then 20 else 0))),
          a := p.a }) := by
  constructor
  · intro q hq
    simp only [applyEnhancements, List.mem_map] at hq
    obtain ⟨p, _, rfl⟩ := hq
    exact ⟨(clamp255_bounds _).1, (clamp255_bounds _).2,
      (clamp255_bounds _).1, (clamp255_bounds _).2,
      (clamp255_bounds _).1, (clamp255_bounds _).2⟩
  · intro i p hp
    simp only [applyEnhancements, List.getElem?_map, hp, Option.map_some]
    rfl

/-- Witness for C8 on the one-pixel all-black raster: the transformed
pixel is in bounds and matches the formula (mean luminance 0 < 128, so
the +20 offset applies and the clamp floors the black channels at 0). -/
theorem applyEnhancements_formula_and_clamp_witness :
    (0 ≤ (applyEnhancements [⟨0, 0, 0, 255⟩]).headI.r ∧
      (applyEnhancements [⟨0, 0, 0, 255⟩]).headI.r ≤ 255 ∧
      0 ≤ (applyEnhancements [⟨0, 0, 0, 255⟩]).headI.g ∧
      (applyEnhancements [⟨0, 0, 0, 255⟩]).headI.g ≤ 255 ∧
      0 ≤ (applyEnhancements [⟨0, 0, 0, 255⟩]).headI.b ∧
      (applyEnhancements [⟨0, 0, 0, 255⟩]).headI.b ≤ 255) ∧
    (applyEnhancements [⟨0, 0, 0, 255⟩])[0]? = some
      { r := min 255 (max 0 (((0 : ℚ) - 128) * (13 / 10) + 128
          + (if ([(⟨0, 0, 0, 255⟩ : Pixel)] : List Pixel).length ≠ 0
              ∧ avgBrightness [⟨0, 0, 0, 255⟩] < 128 then 20 else 0))),
        g := min 255 (max 0 (((0 : ℚ) - 128) * (13 / 10) + 128
          + (if ([(⟨0, 0, 0, 255⟩ : Pixel)] : List Pixel).length ≠ 0
              ∧ avgBrightness [⟨0, 0, 0, 255⟩] < 128 then 20 else 0))),
        b := min 255 (max 0 (((0 : ℚ) - 128) * (13 / 10) + 128
          + (if ([(⟨0, 0, 0, 255⟩ : Pixel)] : List Pixel).length ≠ 0
              ∧ avgBrightness [⟨0, 0, 0, 255⟩] < 128 then 20 else 0))),
        a := 255 } :=
  ⟨(applyEnhancements_formula_and_clamp [⟨0, 0, 0, 255⟩]).1
      (applyEnhancements [⟨0, 0, 0, 255⟩]).headI
      (List.mem_singleton.mpr rfl),
   (applyEnhancements_formula_and_clamp [⟨0, 0, 0, 255⟩]).2 0
      ⟨0, 0, 0, 255⟩ rfl⟩

set_option linter.unnecessarySeqFocus false in
/-- Helper: the batch loop without cancellation attempts every item and
saves exactly the error-free ones. -/
theorem runBatchFrom_none (items : List BatchItem) :
    ∀ (idx : Nat) (acc : BatchCounters),
      runBatchFrom none idx items acc =
        { processed := acc.processed + items.length,
          saved := acc.saved
            + items.countP (fun it => it.succeeds) } := by
  induction items with
  | nil => intro idx acc; rfl
  | cons it rest ih =>
    intro idx acc
    show runBatchFrom none (idx + 1) rest _ = _
    rw [ih (idx + 1)]
    simp only [BatchCounters.mk.injEq, List.length_cons, List.countP_cons]
    constructor
    · omega
    · by_cases hs : it.succeeds <;> simp [hs] <;> omega

set_option linter.unnecessarySeqFocus false in
/-- Helper: the batch loop with the cancel flag first observed at
iteration `k` attempts the first `k - idx` items from position `idx`
and saves exactly the error-free ones among them. -/
theorem runBatchFrom_some (k : Nat) (items : List BatchItem) :
    ∀ (idx : Nat) (acc : BatchCounters),
      runBatchFrom (some k) idx items acc =
        { processed := acc.processed + min (k - idx) items.length,
          saved := acc.saved + ((items.take (k - idx)).countP
            (fun it => it.succeeds)) } := by
  induction items with
  | nil =>
    intro idx acc
    simp [runBatchFrom, List.take_nil]
  | cons it rest ih =>
    intro idx acc
    by_cases hk : k ≤ idx
    · have hz : k - idx = 0 := Nat.sub_eq_zero_of_le hk
      simp [runBatchFrom, cancelledAt, hk, hz]
    · have hpos : idx < k := Nat.lt_of_not_le hk
      have hstep : k - idx = (k - (idx + 1)) + 1 := by omega
      show (if cancelledAt (some k) idx = true then _ else _) = _
      rw [if_neg (by simp [cancelledAt]; omega)]
      rw [ih (idx + 1)]
      rw [hstep, List.take_succ_cons]
      simp only [BatchCounters.mk.injEq, List.length_cons,
        List.countP_cons, Nat.succ_min_succ]
      constructor
      · omega
      · by_cases hs : it.succeeds <;> simp [hs] <;> omega

/-- C10: a per-item error never aborts the batch — the loop attempts
every item up to the file count (or the cancellation point), and the
number of saved items equals the number of attempted items whose body
ran without error. -/
theorem batch_item_error_does_not_abort (cancelFrom : Option Nat)
    (items : List BatchItem) :
    (runBatch cancelFrom items).processed
      = cancelFrom.elim items.length (fun k => min k items.length) ∧
    (runBatch cancelFrom items).saved
      = ((items.take ((runBatch cancelFrom items).processed)).countP
          (fun it => it.succeeds)) := by
  cases cancelFrom with
  | none =>
    unfold runBatch
    rw [runBatchFrom_none items 0]
    simp [List.take_length]
  | some k =>
    unfold runBatch
    rw [runBatchFrom_some k items 0]
    dsimp only [Option.elim]
    simp only [Nat.sub_zero, Nat.zero_add]
    refine ⟨trivial, ?_⟩
    have htake : items.take (min k items.length) = items.take k := by
      rw [List.take_eq_take]
      omega
    rw [htake]

end PhotoDetection
